import Mathlib

set_option maxRecDepth 100000
set_option maxHeartbeats 1000000

/-!
Shallow embedding of the Interactive Session & Element-Mapping Engine of
`server/src/services/interactiveTestBuilder.ts` (class `InteractiveTestBuilder`),
together with the express route layer that wraps it.

Machine timestamps (`new Date()` / `Date.now()`) are modelled as an explicit
`now : Nat` parameter.  The live browser page is modelled as oracles: a
`resolves : String → Bool` function standing for `page.$(selector) !== null`,
and, where needed, a lookup returning the element snapshot that
`page.evaluate` would produce.  All functions are pure state transformers.
-/

namespace ITB

/-- One interactive element observed on a page (`interface ElementMapping`). -/
structure ElementMapping where
  id : String
  name : String
  selector : String
  alternativeSelectors : List String
  type : String
  attributes : List (String × String)
  text : String
  lastVerified : Nat
  isStable : Bool
deriving Repr, DecidableEq

/-- Durable model of a page (`interface PageObjectModel`); screenshot paths omitted. -/
structure PageObjectModel where
  id : String
  name : String
  url : String
  urlPattern : Option String
  elements : List ElementMapping
  lastUpdated : Nat
  version : Nat
deriving Repr, DecidableEq

/-- One recorded action (`interface TestStep`); screenshot path and assertion
payload omitted (no claim mentions them). -/
structure TestStep where
  id : String
  action : String
  elementId : Option String
  elementName : Option String
  selector : Option String
  value : Option String
  timestamp : Nat
deriving Repr, DecidableEq

/-- Ephemeral per-authoring-session state (`interface InteractiveSession`);
the browser/context/page handles and trace file are left to the oracles. -/
structure InteractiveSession where
  id : String
  currentUrl : String
  currentPageObject : Option PageObjectModel
  recordedSteps : List TestStep
  elementMappings : List (String × ElementMapping)
  isRecording : Bool
deriving Repr, DecidableEq

/-- DOM node snapshot as seen inside `page.evaluate` in `extractAllElements`:
`tagName` is the DOM `tagName` (uppercase for HTML elements), `attrs` the
attribute list, `textContent` the raw text content; the remaining fields feed
the visibility filter (`getBoundingClientRect` and the inline `style`). -/
structure RawEl where
  tagName : String
  attrs : List (String × String)
  textContent : String
  width : Nat
  height : Nat
  styleDisplay : String
  styleVisibility : String
deriving Repr, DecidableEq

/-- `el.getAttribute(n)`: `some value` when the attribute is present, `none`
otherwise. -/
def getAttributeOf (attrs : List (String × String)) (n : String) : Option String :=
  (attrs.find? (fun p => p.1 == n)).map (fun p => p.2)

/-- JavaScript truthiness of a `getAttribute` result: `null` and `''` are falsy. -/
def truthy : Option String → Bool
  | some v => v != ""
  | none => false

/-- JavaScript `a || b` on `getAttribute` results: keeps `a` when truthy. -/
def jsOr (a b : Option String) : Option String :=
  if truthy a then a else b

/-- `el.id` (the reflected `id` attribute; `''` when absent). -/
def RawEl.idProp (e : RawEl) : String :=
  (getAttributeOf e.attrs "id").getD ""

/-- JavaScript `String.prototype.trim` (whitespace at both ends removed). -/
def jsTrim (s : String) : String :=
  String.mk (((s.data.dropWhile Char.isWhitespace).reverse.dropWhile
    Char.isWhitespace).reverse)

/-- `generateBestSelector` as defined inside `extractAllElements`'s
`page.evaluate` (interactiveTestBuilder.ts lines 492-508): id, then the first
truthy of data-testid/data-test/data-cy (always emitted under the
`data-testid` attribute name), then `name`, then short text for BUTTON/A,
then the lowercased tag name. -/
def generateBestSelector (e : RawEl) : String :=
  if e.idProp != "" then "#" ++ e.idProp
  else
    let dataTestId := jsOr (getAttributeOf e.attrs "data-testid")
      (jsOr (getAttributeOf e.attrs "data-test") (getAttributeOf e.attrs "data-cy"))
    if truthy dataTestId then "[data-testid=\"" ++ dataTestId.getD "" ++ "\"]"
    else if truthy (getAttributeOf e.attrs "name") then
      "[name=\"" ++ (getAttributeOf e.attrs "name").getD "" ++ "\"]"
    else
      let text := jsTrim e.textContent
      if text != "" && text.length < 30 && (e.tagName == "BUTTON" || e.tagName == "A") then
        "text=\"" ++ text ++ "\""
      else
        String.mk (e.tagName.data.map Char.toLower)

/-- `detectType` as defined inside `extractAllElements`'s `page.evaluate`
(lines 510-525). -/
def detectType (e : RawEl) : String :=
  let tag := String.mk (e.tagName.data.map Char.toLower)
  let ty := getAttributeOf e.attrs "type"
  if tag == "button" then "button"
  else if tag == "a" then "link"
  else if tag == "input" && (ty == some "text" || ty == some "email" || ty == some "password") then "input"
  else if tag == "input" && ty == some "checkbox" then "checkbox"
  else if tag == "input" && ty == some "radio" then "radio"
  else if tag == "select" then "dropdown"
  else if tag == "textarea" then "input"
  else "other"

/-- Visibility filter applied per node in `extractAllElements` (lines 547-551):
zero-area nodes and inline `display:none` / `visibility:hidden` are skipped. -/
def isVisible (e : RawEl) : Bool :=
  !(e.width == 0 || e.height == 0) &&
  !(e.styleDisplay == "none" || e.styleVisibility == "hidden")

/-- The plain record pushed for each retained node inside the page context
(lines 553-558). -/
structure RawExtract where
  selector : String
  type : String
  text : String
  attributes : List (String × String)
deriving Repr, DecidableEq

/-- In-page half of `extractAllElements`: filter visible nodes and build the
raw records.  The deduplication by DOM-node identity across the query list is
modelled by taking the already-deduplicated node list as input. -/
def pageExtract (els : List RawEl) : List RawExtract :=
  (els.filter isVisible).map (fun e =>
    { selector := generateBestSelector e
      type := detectType e
      text := jsTrim e.textContent
      attributes := e.attrs })

/-- Characters kept verbatim by the `[^a-z0-9]` slug step. -/
def isSlugChar (c : Char) : Bool :=
  ('a' ≤ c && c ≤ 'z') || ('0' ≤ c && c ≤ '9')

/-- `.replace(/_+/g, '_')`: collapse runs of underscores. -/
def collapseUnderscores : List Char → List Char
  | [] => []
  | [c] => [c]
  | c :: d :: rest =>
    if c == '_' && d == '_' then collapseUnderscores (d :: rest)
    else c :: collapseUnderscores (d :: rest)

/-- `.replace(/^_|_$/g, '')`: drop one leading and one trailing underscore. -/
def stripEdgeUnderscores (l : List Char) : List Char :=
  let l1 := match l with
    | '_' :: rest => rest
    | l => l
  match l1.reverse with
  | '_' :: rest => rest.reverse
  | _ => l1

/-- `generateElementName(text, type)` (lines 1247-1255): slug of the first 30
characters of the text, else `<type>_element`. -/
def generateElementName (text type : String) : String :=
  let base := stripEdgeUnderscores (collapseUnderscores
    (((text.take 30).data.map Char.toLower).map
      (fun c => if isSlugChar c then c else '_')))
  if base.isEmpty then type ++ "_element" else String.mk base

/-- Node-side record → `ElementMapping`, as in the `.then` continuation of
`extractAllElements` (lines 565-575).  `now` stands for `Date.now()`. -/
def toMapping (now idx : Nat) (e : RawExtract) : ElementMapping :=
  { id := "element-" ++ toString now ++ "-" ++ toString idx
    name := generateElementName e.text e.type
    selector := e.selector
    alternativeSelectors := []
    type := e.type
    attributes := e.attributes
    text := e.text
    lastVerified := now
    isStable := true }

/-- Index-aware map used to mirror `rawElements.map((el, index) => ...)`. -/
def mapWithIndex (f : Nat → RawExtract → ElementMapping) : Nat → List RawExtract → List ElementMapping
  | _, [] => []
  | i, e :: rest => f i e :: mapWithIndex f (i + 1) rest

/-- `extractAllElements` (lines 486-577): in-page extraction followed by the
conversion to `ElementMapping`s. -/
def extractAllElements (now : Nat) (els : List RawEl) : List ElementMapping :=
  mapWithIndex (fun i e => toMapping now i e) 0 (pageExtract els)

/-- Modelled host behaviour: `new URL(url).pathname` for plain absolute
`scheme://authority/path?query#fragment` URLs — everything from the first `/`
after the authority up to `?`/`#`, or `/` when the path is empty. -/
def dropThroughSchemeSep : List Char → List Char
  | ':' :: '/' :: '/' :: rest => rest
  | _ :: rest => dropThroughSchemeSep rest
  | [] => []

/-- Pathname of an absolute URL (see `dropThroughSchemeSep`). -/
def urlPathname (url : String) : String :=
  let afterAuth := (dropThroughSchemeSep url.data).dropWhile (fun c => c != '/')
  let path := afterAuth.takeWhile (fun c => c != '?' && c != '#')
  if path.isEmpty then "/" else String.mk path

/-- `pathname.replace(/\/\d+/g, '/\\d+')`, fuel-indexed so that the
definition is structurally recursive (and hence evaluates inside the
kernel): each slash followed by a maximal run of digits becomes the literal
four characters `/\d+`.  One unit of fuel is spent per character consumed,
so `l.length` fuel always suffices and the fuel-exhausted branch is
unreachable from `numSegsToRegex`. -/
def numSegsToRegexAux : Nat → List Char → List Char
  | _, [] => []
  | _, [c] => [c]
  | 0, l => l
  | fuel + 1, '/' :: c :: rest =>
    if c.isDigit then
      '/' :: '\\' :: 'd' :: '+' :: numSegsToRegexAux fuel (rest.dropWhile Char.isDigit)
    else
      '/' :: numSegsToRegexAux fuel (c :: rest)
  | fuel + 1, c :: rest => c :: numSegsToRegexAux fuel rest

/-- See `numSegsToRegexAux`. -/
def numSegsToRegex (l : List Char) : List Char :=
  numSegsToRegexAux l.length l

/-- `generateUrlPattern` (lines 1270-1273). -/
def generateUrlPattern (url : String) : String :=
  String.mk (numSegsToRegex (urlPathname url).data)

/-- Token of the regex fragment that `generateUrlPattern` emits: literal
characters and `\d+`. -/
inductive RTok
  | lit (c : Char)
  | digits
deriving Repr, DecidableEq

/-- `new RegExp(pattern)` restricted to the fragment `generateUrlPattern`
produces (literal characters and `\d+`); other metacharacters do not occur in
the generated patterns and are treated as literals. -/
def compilePattern : List Char → List RTok
  | '\\' :: 'd' :: '+' :: rest => RTok.digits :: compilePattern rest
  | c :: rest => RTok.lit c :: compilePattern rest
  | [] => []

mutual

/-- Does the token list match some prefix of the character list?  Fuel-indexed
so the mutual recursion is structural; every recursive call strictly shrinks
`ts.length + xs.length`, so `ts.length + xs.length + 1` fuel always
suffices. -/
def matchToksAux : Nat → List RTok → List Char → Bool
  | 0, _, _ => false
  | fuel + 1, ts, xs =>
    match ts, xs with
    | [], _ => true
    | RTok.lit c :: ts', x :: xs' => c == x && matchToksAux fuel ts' xs'
    | RTok.lit _ :: _, [] => false
    | RTok.digits :: ts', xs => matchDigitsAux fuel ts' xs

/-- `\d+` then the remaining tokens: consume one digit, then either continue
with the rest of the tokens or consume further digits. -/
def matchDigitsAux : Nat → List RTok → List Char → Bool
  | 0, _, _ => false
  | fuel + 1, ts, xs =>
    match xs with
    | x :: xs' => x.isDigit && (matchToksAux fuel ts xs' || matchDigitsAux fuel ts xs')
    | [] => false

end

/-- See `matchToksAux`. -/
def matchToks (ts : List RTok) (xs : List Char) : Bool :=
  matchToksAux (ts.length + xs.length + 1) ts xs

/-- Unanchored search, i.e. `RegExp.prototype.test`: try every start offset. -/
def regexSearch (ts : List RTok) : List Char → Bool
  | [] => matchToks ts []
  | x :: xs => matchToks ts (x :: xs) || regexSearch ts xs

/-- `new RegExp(pattern).test(s)` for the generated pattern fragment. -/
def regexTest (pattern s : String) : Bool :=
  regexSearch (compilePattern pattern.data) s.data

/-- `findPageObjectByUrl` (lines 1158-1165): first stored POM whose `url`
equals the query or whose `urlPattern` regex-matches it.  The repository
`Map`'s iteration order is its insertion order, modelled as a list. -/
def findPageObjectByUrl (repo : List PageObjectModel) (url : String) : Option PageObjectModel :=
  repo.find? (fun pom =>
    pom.url == url ||
      (match pom.urlPattern with
       | some p => regexTest p url
       | none => false))

/-- JavaScript `charAt(0).toUpperCase() + slice(1)`. -/
def capitalizeFirst (s : String) : String :=
  match s.data with
  | [] => ""
  | c :: rest => String.mk (c.toUpper :: rest)

/-- Split a character list on `/` (the `pathname.split('/')` call). -/
def splitOnSlash : List Char → List (List Char)
  | [] => [[]]
  | '/' :: rest => [] :: splitOnSlash rest
  | c :: rest =>
    match splitOnSlash rest with
    | s :: ss => (c :: s) :: ss
    | [] => [[c]]

/-- `generatePageName` (lines 1260-1265): last non-empty path segment (or
`home`), capitalised, plus `Page`. -/
def generatePageName (url : String) : String :=
  let segs := ((splitOnSlash (urlPathname url).data).map String.mk).filter (fun s => s != "")
  let pathName := segs.getLast?.getD "home"
  capitalizeFirst pathName ++ "Page"

/-- `createPageObjectModel` (lines 462-481); screenshots omitted, element
extraction passed in as the already-computed list. -/
def createPageObjectModel (now : Nat) (url : String) (elements : List ElementMapping) :
    PageObjectModel :=
  { id := "pom-" ++ toString now
    name := generatePageName url
    url := url
    urlPattern := some (generateUrlPattern url)
    elements := elements
    lastUpdated := now
    version := 1 }

/-- JavaScript `Map.prototype.set` on an insertion-ordered association list:
replace the value at an existing key in place, else append at the end. -/
def mapSet (k : String) (v : ElementMapping) :
    List (String × ElementMapping) → List (String × ElementMapping)
  | [] => [(k, v)]
  | (k', v') :: rest => if k' == k then (k, v) :: rest else (k', v') :: mapSet k v rest

/-- `existing.elements.forEach(el => mergedElements.set(el.selector, el))`
(line 1177): the selector-keyed map seeded from the existing elements. -/
def buildBySelector (els : List ElementMapping) : List (String × ElementMapping) :=
  els.foldl (fun m el => mapSet el.selector el m) []

/-- One iteration of `currentElements.forEach` in `updatePageObjectModel`
(lines 1180-1188): a fresh element matching an existing selector refreshes
`lastVerified`/`isStable` in place, otherwise it is inserted as new. -/
def mergeStep (now : Nat) (m : List (String × ElementMapping)) (el : ElementMapping) :
    List (String × ElementMapping) :=
  match m.lookup el.selector with
  | some ex => mapSet el.selector { ex with lastVerified := now, isStable := true } m
  | none => mapSet el.selector el m

/-- `updatePageObjectModel` (lines 1170-1196), with the fresh extraction
(`currentElements`) passed in; the persistence call is a no-op here. -/
def updatePageObjectModel (now : Nat) (existing : PageObjectModel)
    (currentElements : List ElementMapping) : PageObjectModel :=
  let merged := currentElements.foldl (mergeStep now) (buildBySelector existing.elements)
  { existing with
      elements := merged.map (fun p => p.2)
      lastUpdated := now
      version := existing.version + 1 }

/-- `findElementIdBySelector` (lines 1219-1226). -/
def findElementIdBySelector (session : InteractiveSession) (selector : String) :
    Option String :=
  (session.elementMappings.find? (fun p =>
    p.2.selector == selector || p.2.alternativeSelectors.contains selector)).map
    (fun p => p.1)

/-- Snapshot returned by the `page.evaluate` inside `mapNewElement`
(lines 280-290): lowercased tag name, `type` attribute (or `''`), trimmed
text, and the attribute list. -/
structure PageElement where
  tagName : String
  typeAttr : String
  text : String
  attributes : List (String × String)
deriving Repr, DecidableEq

/-- `detectElementType` (lines 1231-1242), the class-level variant used by
`mapNewElement`. -/
def detectElementType (tagName ty : String) : String :=
  if tagName == "button" then "button"
  else if tagName == "a" then "link"
  else if tagName == "select" then "dropdown"
  else if tagName == "textarea" then "input"
  else if tagName == "input" && ty == "checkbox" then "checkbox"
  else if tagName == "input" && ty == "radio" then "radio"
  else if tagName == "input" &&
    ["text", "email", "password", "number", "tel", "url"].contains ty then "input"
  else "other"

/-- `mapNewElement` (lines 276-319): the page snapshot and the
`generateAlternativeSelectors` result arrive from oracles; the new mapping is
appended to the session's working set and, when a current POM exists, to its
elements (bumping `version`).  Persistence is a no-op here. -/
def mapNewElement (alts : List String) (now : Nat) (session : InteractiveSession)
    (pe : PageElement) (selector name : String) : InteractiveSession × ElementMapping :=
  let mapping : ElementMapping :=
    { id := "element-" ++ toString now
      name := name
      selector := selector
      alternativeSelectors := alts
      type := detectElementType pe.tagName pe.typeAttr
      attributes := pe.attributes
      text := pe.text
      lastVerified := now
      isStable := true }
  let session := { session with
    elementMappings := session.elementMappings ++ [(mapping.id, mapping)] }
  let session :=
    match session.currentPageObject with
    | some pom =>
      let pom' : PageObjectModel :=
        { pom with
            elements := pom.elements ++ [mapping]
            lastUpdated := now
            version := pom.version + 1 }
      { session with currentPageObject := some pom' }
    | none => session
  (session, mapping)

/-- The shared element-resolution step of `clickElement`/`fillElement`
(lines 213-218 / 248-252): if the selector is unmapped and a name was
supplied, implicitly map a new element; returns the (possibly extended)
session and the step's `elementId`. -/
def resolveActionElement (alts : List String) (now : Nat) (session : InteractiveSession)
    (pe : PageElement) (selector : String) (elementName : Option String) :
    InteractiveSession × Option String :=
  match findElementIdBySelector session selector, elementName with
  | none, some nm =>
    let r := mapNewElement alts now session pe selector nm
    (r.1, some r.2.id)
  | _, _ => (session, findElementIdBySelector session selector)

/-- The recording guard shared by `clickElement`/`fillElement`
(lines 231-233 / 265-267): append the step only while `isRecording`. -/
def recordStep (session : InteractiveSession) (step : TestStep) : InteractiveSession :=
  if session.isRecording then
    { session with recordedSteps := session.recordedSteps ++ [step] }
  else session

/-- `clickElement` (lines 206-237) at the session level.  `page sel = none`
models `page.click` throwing because the selector resolves nothing; `altsOf`
models `generateAlternativeSelectors`. -/
def clickElement (page : String → Option PageElement) (altsOf : String → List String)
    (now : Nat) (session : InteractiveSession) (selector : String)
    (elementName : Option String) : Option (InteractiveSession × TestStep) :=
  match page selector with
  | none => none
  | some pe =>
    let sid := resolveActionElement (altsOf selector) now session pe selector elementName
    let step : TestStep :=
      { id := "step-" ++ toString now
        action := "click"
        elementId := sid.2
        elementName := elementName
        selector := some selector
        value := none
        timestamp := now }
    some (recordStep sid.1 step, step)

/-- `fillElement` (lines 242-271) at the session level, analogous to
`clickElement`. -/
def fillElement (page : String → Option PageElement) (altsOf : String → List String)
    (now : Nat) (session : InteractiveSession) (selector value : String)
    (elementName : Option String) : Option (InteractiveSession × TestStep) :=
  match page selector with
  | none => none
  | some pe =>
    let sid := resolveActionElement (altsOf selector) now session pe selector elementName
    let step : TestStep :=
      { id := "step-" ++ toString now
        action := "fill"
        elementId := sid.2
        elementName := elementName
        selector := some selector
        value := some value
        timestamp := now }
    some (recordStep sid.1 step, step)

/-- `startRecording` (lines 167-179) at the session level: arm the recorder
and reset the step list. -/
def startRecording (session : InteractiveSession) : InteractiveSession :=
  { session with isRecording := true, recordedSteps := [] }

/-- `stopRecording` (lines 184-201) at the session level: disarm the recorder
(the generated source text is not modelled). -/
def stopRecording (session : InteractiveSession) : InteractiveSession :=
  { session with isRecording := false }

/-- `verifyElementStability` (lines 358-385): try the primary selector, then
each alternative in order; on the first alternative that resolves, promote it
to `selector` and stamp `lastVerified`; otherwise leave the descriptor
untouched.  `resolves sel` models `await page.$(sel) !== null`. -/
def verifyElementStability (resolves : String → Bool) (now : Nat)
    (session : InteractiveSession) (elementId : String) :
    Bool × InteractiveSession :=
  match session.elementMappings.lookup elementId with
  | none => (false, session)
  | some element =>
    if resolves element.selector then (true, session)
    else
      match element.alternativeSelectors.find? resolves with
      | some altSelector =>
        let element' := { element with selector := altSelector, lastVerified := now }
        (true, { session with
          elementMappings := mapSet elementId element' session.elementMappings })
      | none => (false, session)

/-- `endSession` (lines 1312-1326): an unknown (or already ended) session id
returns silently (`if (!session) return;`); a live session is closed and
removed from the table.  The `Except` records whether an error was thrown. -/
def endSession (sessions : List (String × InteractiveSession)) (sessionId : String) :
    List (String × InteractiveSession) × Except String Unit :=
  match sessions.lookup sessionId with
  | none => (sessions, Except.ok ())
  | some _ => (sessions.eraseP (fun p => p.1 == sessionId), Except.ok ())

/-- The `if (!session) throw new Error('Session not found')` guard shared by
`navigateAndAnalyze`, `startRecording`, `stopRecording`, `clickElement` and
`fillElement` (e.g. lines 130-131, 168-169, 207-208). -/
def requireSession (sessions : List (String × InteractiveSession)) (sessionId : String) :
    Except String InteractiveSession :=
  match sessions.lookup sessionId with
  | none => Except.error "Session not found"
  | some s => Except.ok s

/-- Shape of the JSON body the interactive-test routes respond with. -/
structure RouteResponse where
  success : Bool
  message : Option String
  error : Option String
deriving Repr, DecidableEq

/-- `router.delete('/sessions/:sessionId')` from the interactive-test route
module: awaits `endSession` and responds `{success: true, message: 'Session
ended'}`; the catch branch responds a 500 only when `endSession` throws. -/
def deleteSessionRoute (sessions : List (String × InteractiveSession))
    (sessionId : String) : List (String × InteractiveSession) × RouteResponse :=
  let r := endSession sessions sessionId
  match r.2 with
  | Except.ok _ =>
    (r.1, { success := true, message := some "Session ended", error := none })
  | Except.error _ =>
    (r.1, { success := false, message := none, error := some "Failed to end session" })

/-- A qualifying user action for the recording invariant. -/
inductive RecAction
  | click (selector : String) (name : Option String)
  | fill (selector : String) (value : String) (name : Option String)
deriving Repr, DecidableEq

/-- Run one action through the session action API. -/
def applyAction (page : String → Option PageElement) (altsOf : String → List String)
    (now : Nat) (session : InteractiveSession) : RecAction → Option InteractiveSession
  | RecAction.click sel nm => (clickElement page altsOf now session sel nm).map (fun p => p.1)
  | RecAction.fill sel v nm => (fillElement page altsOf now session sel v nm).map (fun p => p.1)

/-- Run a sequence of actions; `none` as soon as one fails. -/
def runActions (page : String → Option PageElement) (altsOf : String → List String)
    (now : Nat) : List RecAction → InteractiveSession → Option InteractiveSession
  | [], session => some session
  | a :: rest, session =>
    match applyAction page altsOf now session a with
    | none => none
    | some session' => runActions page altsOf now rest session'

/-! ### General lemmas about the embedding -/

/-- Membership in an index-aware map comes from some index and source record. -/
theorem mem_mapWithIndex {f : Nat → RawExtract → ElementMapping} {m : ElementMapping} :
    ∀ {i : Nat} {l : List RawExtract}, m ∈ mapWithIndex f i l → ∃ j e, m = f j e := by
  intro i l
  induction l generalizing i with
  | nil => intro h; cases h
  | cons e rest ih =>
    intro h
    cases h with
    | head => exact ⟨i, e, rfl⟩
    | tail _ h' => exact ih h'

/-- `generateElementName` either returns the slug of the first 30 characters
of the text or, when that slug is empty, the `<type>_element` fallback. -/
theorem generateElementName_spec (text ty : String) :
    generateElementName text ty = String.mk (stripEdgeUnderscores
        (collapseUnderscores (((text.take 30).data.map Char.toLower).map
          (fun c => if isSlugChar c then c else '_')))) ∨
      generateElementName text ty = ty ++ "_element" := by
  by_cases h : (stripEdgeUnderscores (collapseUnderscores
      (((text.take 30).data.map Char.toLower).map
        (fun c => if isSlugChar c then c else '_')))).isEmpty = true
  · right
    simp only [generateElementName]
    rw [if_pos h]
  · left
    simp only [generateElementName]
    rw [if_neg h]

/-- `List.lookup` after `mapSet` at the written key returns the new value. -/
theorem lookup_mapSet_self (k : String) (v : ElementMapping)
    (m : List (String × ElementMapping)) : (mapSet k v m).lookup k = some v := by
  induction m with
  | nil => simp [mapSet, List.lookup]
  | cons p rest ih =>
    obtain ⟨k', v'⟩ := p
    by_cases h : k' = k
    · simp [mapSet, h, List.lookup]
    · have hb : (k' == k) = false := beq_eq_false_iff_ne.mpr h
      have hb' : (k == k') = false := beq_eq_false_iff_ne.mpr (Ne.symm h)
      simp [mapSet, hb, List.lookup, hb', ih]

/-- `List.lookup` after `mapSet` at a different key is unchanged. -/
theorem lookup_mapSet_ne (k k' : String) (v : ElementMapping)
    (m : List (String × ElementMapping)) (h : k' ≠ k) :
    (mapSet k v m).lookup k' = m.lookup k' := by
  have hb : (k' == k) = false := beq_eq_false_iff_ne.mpr h
  induction m with
  | nil => simp [mapSet, List.lookup, hb]
  | cons p rest ih =>
    obtain ⟨k'', v''⟩ := p
    by_cases hk : k'' = k
    · subst hk
      have hb2 : (k' == k'') = false := hb
      simp [mapSet, List.lookup, hb2]
    · have hb3 : (k'' == k) = false := beq_eq_false_iff_ne.mpr hk
      simp only [mapSet, hb3, Bool.false_eq_true, if_false, List.lookup]
      cases hkk : k' == k'' <;> simp [ih]

/-- Re-writing the value that is already stored leaves the map unchanged. -/
theorem mapSet_lookup_self (k : String) (v : ElementMapping)
    (m : List (String × ElementMapping)) (h : m.lookup k = some v) :
    mapSet k v m = m := by
  induction m with
  | nil => simp [List.lookup] at h
  | cons p rest ih =>
    obtain ⟨k', v'⟩ := p
    by_cases hk : k' = k
    · subst hk
      rw [List.lookup] at h
      simp only [beq_self_eq_true] at h
      cases h
      simp [mapSet]
    · have hb : (k == k') = false := beq_eq_false_iff_ne.mpr (Ne.symm hk)
      rw [List.lookup, hb] at h
      have hb2 : (k' == k) = false := beq_eq_false_iff_ne.mpr hk
      simp [mapSet, hb2, ih h]

/-- A successful `List.lookup` exhibits a member of the association list. -/
theorem lookup_mem (k : String) (v : ElementMapping)
    (m : List (String × ElementMapping)) (h : m.lookup k = some v) : (k, v) ∈ m := by
  induction m with
  | nil => simp [List.lookup] at h
  | cons p rest ih =>
    obtain ⟨k', v'⟩ := p
    by_cases hk : k = k'
    · subst hk
      rw [List.lookup] at h
      simp only [beq_self_eq_true] at h
      cases h
      simp
    · have hb : (k == k') = false := beq_eq_false_iff_ne.mpr hk
      rw [List.lookup, hb] at h
      simp [ih h]

/-- `mapSet` on a fresh key appends the binding at the end. -/
theorem mapSet_append_of_not_mem (k : String) (v : ElementMapping)
    (m : List (String × ElementMapping)) (h : ∀ p ∈ m, p.1 ≠ k) :
    mapSet k v m = m ++ [(k, v)] := by
  induction m with
  | nil => simp [mapSet]
  | cons p rest ih =>
    obtain ⟨k', v'⟩ := p
    have hk : k' ≠ k := h (k', v') (by simp)
    have hb : (k' == k) = false := beq_eq_false_iff_ne.mpr hk
    simp [mapSet, hb]
    exact ih (fun q hq => h q (by simp [hq]))

/-- `mapNewElement` touches only `elementMappings` and `currentPageObject`. -/
theorem mapNewElement_frame (alts : List String) (now : Nat) (s : InteractiveSession)
    (pe : PageElement) (sel nm : String) :
    (mapNewElement alts now s pe sel nm).1.recordedSteps = s.recordedSteps ∧
    (mapNewElement alts now s pe sel nm).1.isRecording = s.isRecording := by
  cases h : s.currentPageObject <;> simp [mapNewElement, h]

/-- `resolveActionElement` touches neither the step list nor the flag. -/
theorem resolveActionElement_frame (alts : List String) (now : Nat)
    (s : InteractiveSession) (pe : PageElement) (sel : String) (nm : Option String) :
    (resolveActionElement alts now s pe sel nm).1.recordedSteps = s.recordedSteps ∧
    (resolveActionElement alts now s pe sel nm).1.isRecording = s.isRecording := by
  unfold resolveActionElement
  cases findElementIdBySelector s sel <;> cases nm <;>
    simp [mapNewElement_frame]

/-- `recordStep` preserves the flag and appends exactly when armed. -/
theorem recordStep_spec (s : InteractiveSession) (step : TestStep) :
    (recordStep s step).isRecording = s.isRecording ∧
    (s.isRecording = true → (recordStep s step).recordedSteps = s.recordedSteps ++ [step]) ∧
    (s.isRecording = false → (recordStep s step).recordedSteps = s.recordedSteps) := by
  cases h : s.isRecording <;> simp [recordStep, h]

/-- Effect of one `clickElement` call on the recorder state: the recording
flag is preserved, and the step is appended exactly when armed. -/
theorem clickElement_spec (page : String → Option PageElement)
    (altsOf : String → List String) (now : Nat) (s : InteractiveSession)
    (sel : String) (nm : Option String) (s' : InteractiveSession) (step : TestStep)
    (h : clickElement page altsOf now s sel nm = some (s', step)) :
    s'.isRecording = s.isRecording ∧
    (s.isRecording = true → s'.recordedSteps = s.recordedSteps ++ [step]) ∧
    (s.isRecording = false → s'.recordedSteps = s.recordedSteps) := by
  simp only [clickElement] at h
  cases hp : page sel with
  | none => rw [hp] at h; simp at h
  | some pe =>
    rw [hp] at h
    simp only [Option.some.injEq, Prod.mk.injEq] at h
    obtain ⟨h1, h2⟩ := h
    obtain ⟨f1, f2⟩ := resolveActionElement_frame (altsOf sel) now s pe sel nm
    obtain ⟨g1, g2, g3⟩ :=
      recordStep_spec (resolveActionElement (altsOf sel) now s pe sel nm).1 _
    subst h1
    subst h2
    refine ⟨g1.trans f2, fun hr => ?_, fun hr => ?_⟩
    · rw [g2 (f2.trans hr), f1]
    · rw [g3 (f2.trans hr), f1]

/-- Effect of one `fillElement` call on the recorder state. -/
theorem fillElement_spec (page : String → Option PageElement)
    (altsOf : String → List String) (now : Nat) (s : InteractiveSession)
    (sel v : String) (nm : Option String) (s' : InteractiveSession) (step : TestStep)
    (h : fillElement page altsOf now s sel v nm = some (s', step)) :
    s'.isRecording = s.isRecording ∧
    (s.isRecording = true → s'.recordedSteps = s.recordedSteps ++ [step]) ∧
    (s.isRecording = false → s'.recordedSteps = s.recordedSteps) := by
  simp only [fillElement] at h
  cases hp : page sel with
  | none => rw [hp] at h; simp at h
  | some pe =>
    rw [hp] at h
    simp only [Option.some.injEq, Prod.mk.injEq] at h
    obtain ⟨h1, h2⟩ := h
    obtain ⟨f1, f2⟩ := resolveActionElement_frame (altsOf sel) now s pe sel nm
    obtain ⟨g1, g2, g3⟩ :=
      recordStep_spec (resolveActionElement (altsOf sel) now s pe sel nm).1 _
    subst h1
    subst h2
    refine ⟨g1.trans f2, fun hr => ?_, fun hr => ?_⟩
    · rw [g2 (f2.trans hr), f1]
    · rw [g3 (f2.trans hr), f1]

/-- Effect of one action on the recorder state. -/
theorem applyAction_spec (page : String → Option PageElement)
    (altsOf : String → List String) (now : Nat) (s : InteractiveSession)
    (a : RecAction) (t : InteractiveSession)
    (h : applyAction page altsOf now s a = some t) :
    t.isRecording = s.isRecording ∧
    (s.isRecording = true → t.recordedSteps.length = s.recordedSteps.length + 1) ∧
    (s.isRecording = false → t.recordedSteps = s.recordedSteps) := by
  cases a with
  | click sel nm =>
    simp only [applyAction, Option.map_eq_some'] at h
    obtain ⟨⟨s2, step⟩, hc, rfl⟩ := h
    obtain ⟨e1, e2, e3⟩ := clickElement_spec page altsOf now s sel nm s2 step hc
    exact ⟨e1, fun hr => by simp [e2 hr], e3⟩
  | fill sel v nm =>
    simp only [applyAction, Option.map_eq_some'] at h
    obtain ⟨⟨s2, step⟩, hc, rfl⟩ := h
    obtain ⟨e1, e2, e3⟩ := fillElement_spec page altsOf now s sel v nm s2 step hc
    exact ⟨e1, fun hr => by simp [e2 hr], e3⟩

/-- While armed, a run of actions appends exactly one step per action. -/
theorem runActions_armed (page : String → Option PageElement)
    (altsOf : String → List String) (now : Nat) :
    ∀ (acts : List RecAction) (s s' : InteractiveSession), s.isRecording = true →
      runActions page altsOf now acts s = some s' →
      s'.isRecording = true ∧
      s'.recordedSteps.length = s.recordedSteps.length + acts.length := by
  intro acts
  induction acts with
  | nil =>
    intro s s' hr h
    simp only [runActions, Option.some.injEq] at h
    subst h
    simp [hr]
  | cons a rest ih =>
    intro s s' hr h
    simp only [runActions] at h
    cases ha : applyAction page altsOf now s a with
    | none => rw [ha] at h; simp at h
    | some t =>
      rw [ha] at h
      obtain ⟨e1, e2, _⟩ := applyAction_spec page altsOf now s a t ha
      obtain ⟨f1, f2⟩ := ih t s' (e1.trans hr) h
      refine ⟨f1, ?_⟩
      rw [f2, e2 hr]
      simp [Nat.add_assoc, Nat.add_comm 1 rest.length]

/-- While disarmed, a run of actions appends no step. -/
theorem runActions_idle (page : String → Option PageElement)
    (altsOf : String → List String) (now : Nat) :
    ∀ (acts : List RecAction) (s s' : InteractiveSession), s.isRecording = false →
      runActions page altsOf now acts s = some s' →
      s'.isRecording = false ∧ s'.recordedSteps = s.recordedSteps := by
  intro acts
  induction acts with
  | nil =>
    intro s s' hr h
    simp only [runActions, Option.some.injEq] at h
    subst h
    simp [hr]
  | cons a rest ih =>
    intro s s' hr h
    simp only [runActions] at h
    cases ha : applyAction page altsOf now s a with
    | none => rw [ha] at h; simp at h
    | some t =>
      rw [ha] at h
      obtain ⟨e1, _, e3⟩ := applyAction_spec page altsOf now s a t ha
      obtain ⟨f1, f2⟩ := ih t s' (e1.trans hr) h
      exact ⟨f1, f2.trans (e3 hr)⟩

end ITB

namespace ITB

/-! ### Claim theorems -/

/-- C1 counterexample: a button carrying a `data-testid` attribute whose value
is empty (and no id) gets the bare tag name as primary selector, not a
`data-testid` attribute selector, so the claim's second half fails as
universally stated. -/
theorem c1_empty_testid_counterexample :
    generateBestSelector
      { tagName := "BUTTON", attrs := [("data-testid", "")], textContent := ""
        width := 10, height := 10, styleDisplay := "", styleVisibility := "" } = "button" ∧
    "button" ≠ "[data-testid=\"\"]" := by
  constructor
  · decide
  · decide

/-- C1 (amended): an element with a non-empty `id` gets `#<id>` as primary;
an element with no (or empty) `id` and a non-empty `data-testid` value gets
the `[data-testid="<value>"]` attribute selector. -/
theorem c1_primary_selector (e : RawEl) :
    (e.idProp ≠ "" → generateBestSelector e = "#" ++ e.idProp) ∧
    (e.idProp = "" → ∀ v, getAttributeOf e.attrs "data-testid" = some v → v ≠ "" →
      generateBestSelector e = "[data-testid=\"" ++ v ++ "\"]") := by
  constructor
  · intro h
    simp [generateBestSelector, h]
  · intro h v hv hne
    simp [generateBestSelector, h, jsOr, truthy, hv, hne]

/-- Witness for `c1_primary_selector` at two concrete elements. -/
theorem c1_primary_selector_witness :
    generateBestSelector
      { tagName := "BUTTON", attrs := [("id", "go")], textContent := "Go"
        width := 10, height := 10, styleDisplay := "", styleVisibility := "" } = "#go" ∧
    generateBestSelector
      { tagName := "BUTTON", attrs := [("data-testid", "submit-btn")], textContent := "Go"
        width := 10, height := 10, styleDisplay := "", styleVisibility := "" } =
      "[data-testid=\"submit-btn\"]" :=
  ⟨(c1_primary_selector _).1 (by decide),
   (c1_primary_selector _).2 (by decide) "submit-btn" (by decide) (by decide)⟩

/-- C7 counterexample: a button whose only distinguishing attribute is
`aria-label` (claimed priority 3) falls through to the bare tag name — the
code has no aria-label step (and no unique-class step) in
`generateBestSelector`. -/
theorem c7_aria_label_counterexample :
    generateBestSelector
      { tagName := "BUTTON", attrs := [("aria-label", "close")], textContent := ""
        width := 10, height := 10, styleDisplay := "", styleVisibility := "" } = "button" ∧
    "button" ≠ "[aria-label=\"close\"]" := by
  constructor
  · decide
  · decide

/-- C7 (amended): the primary selector is the first match of exactly five
strategies — (1) non-empty id as `#id`; (2) first truthy of
`data-testid`/`data-test`/`data-cy`, always emitted under the `data-testid`
attribute name; (3) non-empty `name` attribute; (4) trimmed visible text
under 30 characters for BUTTON/A as a text selector; (5) lowercased tag
name.  `aria-label` and unique CSS classes are never used for the primary. -/
theorem c7_selector_priority (e : RawEl) :
    (e.idProp ≠ "" → generateBestSelector e = "#" ++ e.idProp) ∧
    (e.idProp = "" →
      truthy (jsOr (getAttributeOf e.attrs "data-testid")
        (jsOr (getAttributeOf e.attrs "data-test") (getAttributeOf e.attrs "data-cy"))) = true →
      generateBestSelector e =
        "[data-testid=\"" ++
          (jsOr (getAttributeOf e.attrs "data-testid")
            (jsOr (getAttributeOf e.attrs "data-test")
              (getAttributeOf e.attrs "data-cy"))).getD "" ++ "\"]") ∧
    (e.idProp = "" →
      truthy (jsOr (getAttributeOf e.attrs "data-testid")
        (jsOr (getAttributeOf e.attrs "data-test") (getAttributeOf e.attrs "data-cy"))) = false →
      truthy (getAttributeOf e.attrs "name") = true →
      generateBestSelector e = "[name=\"" ++ (getAttributeOf e.attrs "name").getD "" ++ "\"]") ∧
    (e.idProp = "" →
      truthy (jsOr (getAttributeOf e.attrs "data-testid")
        (jsOr (getAttributeOf e.attrs "data-test") (getAttributeOf e.attrs "data-cy"))) = false →
      truthy (getAttributeOf e.attrs "name") = false →
      (jsTrim e.textContent != "" && (jsTrim e.textContent).length < 30 &&
        (e.tagName == "BUTTON" || e.tagName == "A")) = true →
      generateBestSelector e = "text=\"" ++ jsTrim e.textContent ++ "\"") ∧
    (e.idProp = "" →
      truthy (jsOr (getAttributeOf e.attrs "data-testid")
        (jsOr (getAttributeOf e.attrs "data-test") (getAttributeOf e.attrs "data-cy"))) = false →
      truthy (getAttributeOf e.attrs "name") = false →
      (jsTrim e.textContent != "" && (jsTrim e.textContent).length < 30 &&
        (e.tagName == "BUTTON" || e.tagName == "A")) = false →
      generateBestSelector e = String.mk (e.tagName.data.map Char.toLower)) := by
  refine ⟨?_, ?_, ?_, ?_, ?_⟩
  · intro h
    simp [generateBestSelector, h]
  · intro h hdt
    simp [generateBestSelector, h, hdt]
  · intro h hdt hnm
    simp [generateBestSelector, h, hdt, hnm]
  · intro h hdt hnm htx
    simp [generateBestSelector, h, hdt, hnm, htx]
  · intro h hdt hnm htx
    simp [generateBestSelector, h, hdt, hnm, htx]

/-- Witness for `c7_selector_priority`: the name-attribute, text and tag-name
branches at concrete elements. -/
theorem c7_selector_priority_witness :
    generateBestSelector
      { tagName := "INPUT", attrs := [("name", "email"), ("aria-label", "Email")]
        textContent := "", width := 10, height := 10
        styleDisplay := "", styleVisibility := "" } = "[name=\"email\"]" ∧
    generateBestSelector
      { tagName := "A", attrs := [("href", "/x")], textContent := " Sign in "
        width := 10, height := 10, styleDisplay := "", styleVisibility := "" } =
      "text=\"Sign in\"" ∧
    generateBestSelector
      { tagName := "SELECT", attrs := [], textContent := ""
        width := 10, height := 10, styleDisplay := "", styleVisibility := "" } = "select" :=
  ⟨((c7_selector_priority _).2.2.1 (by decide) (by decide) (by decide)).trans (by rfl),
   ((c7_selector_priority _).2.2.2.1 (by decide) (by decide) (by decide) (by decide)).trans
     (by rfl),
   ((c7_selector_priority _).2.2.2.2 (by decide) (by decide) (by decide) (by decide)).trans
     (by rfl)⟩

/-- C8 counterexample: an extracted email input with no visible text but a
`placeholder` (and an `id`) is named by the tag/type fallback
`input_element`, not by the claimed placeholder → aria-label → id → name
derivation chain. -/
theorem c8_placeholder_counterexample :
    (extractAllElements 0
      [{ tagName := "INPUT"
         attrs := [("type", "email"), ("placeholder", "Email address"), ("id", "email")]
         textContent := "", width := 10, height := 10
         styleDisplay := "", styleVisibility := "" }]).map (fun m => m.name) =
      ["input_element"] ∧
    "input_element" ≠ "email_address" ∧ "input_element" ≠ "email" := by
  refine ⟨by rfl, by decide, by decide⟩

/-- C8 (amended): an extracted element's name is derived from its trimmed
visible text and inferred type only — the slug (lowercased first 30
characters, non-alphanumerics to underscores, runs collapsed, edge
underscores stripped) of the text, or `<type>_element` when the slug is
empty; placeholder, aria-label, id and name attributes are never consulted. -/
theorem c8_element_name (now : Nat) (els : List RawEl) (m : ElementMapping)
    (hm : m ∈ extractAllElements now els) :
    m.name = generateElementName m.text m.type ∧
    (generateElementName m.text m.type = String.mk (stripEdgeUnderscores
        (collapseUnderscores (((m.text.take 30).data.map Char.toLower).map
          (fun c => if isSlugChar c then c else '_')))) ∨
      generateElementName m.text m.type = m.type ++ "_element") := by
  obtain ⟨j, e, rfl⟩ := mem_mapWithIndex hm
  refine ⟨?_, ?_⟩
  · simp only [toMapping]
  · simp only [toMapping]
    exact generateElementName_spec e.text e.type

/-- Witness for `c8_element_name` at a concrete extraction. -/
theorem c8_element_name_witness :
    (toMapping 3 0 (RawExtract.mk "text=\"Sign In!\"" "button" "Sign In!" [])).name =
      generateElementName
        (toMapping 3 0 (RawExtract.mk "text=\"Sign In!\"" "button" "Sign In!" [])).text
        (toMapping 3 0 (RawExtract.mk "text=\"Sign In!\"" "button" "Sign In!" [])).type ∧
    (toMapping 3 0 (RawExtract.mk "text=\"Sign In!\"" "button" "Sign In!" [])).name = "sign_in" :=
  ⟨(c8_element_name 3
      [RawEl.mk "BUTTON" [] " Sign In! " 10 10 "" ""] _ (by decide)).1,
   by rfl⟩

/-- C9: every descriptor produced by `extractAllElements` has an empty
`alternativeSelectors` list and `isStable = true`, regardless of which
strategy (including the bare tag-name last resort) produced its primary
selector. -/
theorem c9_extraction_invariant (now : Nat) (els : List RawEl) (m : ElementMapping)
    (hm : m ∈ extractAllElements now els) :
    m.alternativeSelectors = [] ∧ m.isStable = true := by
  obtain ⟨j, e, rfl⟩ := mem_mapWithIndex hm
  exact ⟨rfl, rfl⟩

/-- Witness for `c9_extraction_invariant` at a concrete extraction whose
element only gets the bare tag-name selector. -/
theorem c9_extraction_invariant_witness :
    (toMapping 3 0 (RawExtract.mk "select" "dropdown" "" [])).alternativeSelectors = [] ∧
    (toMapping 3 0 (RawExtract.mk "select" "dropdown" "" [])).isStable = true :=
  c9_extraction_invariant 3 [RawEl.mk "SELECT" [] "" 10 10 "" ""] _ (by decide)

/-- C2: if an element's primary selector fails to resolve but its first
alternative resolves, `verifyElementStability` returns `true` and rewrites
the descriptor's primary selector to that alternative (stamping
`lastVerified`); if the primary and every alternative fail, it returns
`false` and the session — in particular the descriptor — is unchanged. -/
theorem c2_stability_recheck :
    (∀ (resolves : String → Bool) (now : Nat) (s : InteractiveSession) (eid : String)
        (el : ElementMapping) (alt : String) (rest : List String),
      s.elementMappings.lookup eid = some el →
      el.alternativeSelectors = alt :: rest →
      resolves el.selector = false →
      resolves alt = true →
      verifyElementStability resolves now s eid =
        (true, { s with elementMappings := mapSet eid ({ el with selector := alt, lastVerified := now }) s.elementMappings })) ∧
    (∀ (resolves : String → Bool) (now : Nat) (s : InteractiveSession) (eid : String)
        (el : ElementMapping),
      s.elementMappings.lookup eid = some el →
      resolves el.selector = false →
      (∀ a ∈ el.alternativeSelectors, resolves a = false) →
      verifyElementStability resolves now s eid = (false, s)) := by
  constructor
  · intro resolves now s eid el alt rest hl ha hp hr
    have hf : el.alternativeSelectors.find? resolves = some alt := by
      rw [ha]
      exact List.find?_cons_of_pos _ hr
    simp [verifyElementStability, hl, hp, hf]
  · intro resolves now s eid el hl hp hall
    have hf : el.alternativeSelectors.find? resolves = none :=
      List.find?_eq_none.mpr (by intro x hx; simp [hall x hx])
    simp [verifyElementStability, hl, hp, hf]

/-- Witness for `c2_stability_recheck`: a concrete session whose element
`#go` no longer resolves while its first alternative `.btn` does, and the
all-fail case on the same session. -/
theorem c2_stability_recheck_witness :
    verifyElementStability (fun sel => sel == ".btn") 9
      (InteractiveSession.mk "s1" "" none []
        [("e1", ElementMapping.mk "e1" "go" "#go" [".btn", ".x"] "button" [] "Go" 0 true)]
        false) "e1" =
      (true, InteractiveSession.mk "s1" "" none []
        [("e1", ElementMapping.mk "e1" "go" ".btn" [".btn", ".x"] "button" [] "Go" 9 true)]
        false) ∧
    verifyElementStability (fun _ => false) 9
      (InteractiveSession.mk "s1" "" none []
        [("e1", ElementMapping.mk "e1" "go" "#go" [".btn", ".x"] "button" [] "Go" 0 true)]
        false) "e1" =
      (false, InteractiveSession.mk "s1" "" none []
        [("e1", ElementMapping.mk "e1" "go" "#go" [".btn", ".x"] "button" [] "Go" 0 true)]
        false) :=
  ⟨(c2_stability_recheck.1 _ 9 _ "e1" _ ".btn" [".x"]
      (by rfl) (by rfl) (by rfl) (by rfl)).trans (by rfl),
   c2_stability_recheck.2 _ 9 _ "e1" _ (by rfl) (by rfl) (by intro a _; rfl)⟩

/-- C10: when `verifyElementStability` promotes an alternative, the updated
descriptor differs from the old one only in `selector` (now the promoted
alternative) and `lastVerified`; `alternativeSelectors` is untouched — the
promoted selector is still listed there and the failed old primary is
discarded, not demoted — and `id`, `name`, `type`, `attributes`, `text` and
`isStable` are unchanged, as are all other mappings of the session. -/
theorem c10_promotion_frame (resolves : String → Bool) (now : Nat)
    (s : InteractiveSession) (eid : String) (el : ElementMapping) (alt : String)
    (hl : s.elementMappings.lookup eid = some el)
    (hp : resolves el.selector = false)
    (hf : el.alternativeSelectors.find? resolves = some alt) :
    ∃ el', (verifyElementStability resolves now s eid).2.elementMappings.lookup eid =
        some el' ∧
      el'.selector = alt ∧
      el'.lastVerified = now ∧
      el'.alternativeSelectors = el.alternativeSelectors ∧
      alt ∈ el'.alternativeSelectors ∧
      el'.id = el.id ∧ el'.name = el.name ∧ el'.type = el.type ∧
      el'.attributes = el.attributes ∧ el'.text = el.text ∧
      el'.isStable = el.isStable ∧
      (∀ k, k ≠ eid →
        (verifyElementStability resolves now s eid).2.elementMappings.lookup k =
          s.elementMappings.lookup k) := by
  refine ⟨{ el with selector := alt, lastVerified := now },
    ?_, rfl, rfl, rfl, ?_, rfl, rfl, rfl, rfl, rfl, rfl, ?_⟩
  · simp [verifyElementStability, hl, hp, hf, lookup_mapSet_self]
  · exact List.mem_of_find?_eq_some hf
  · intro k hk
    simp only [verifyElementStability, hl, hp, hf]
    simp only [Bool.false_eq_true, if_false]
    exact lookup_mapSet_ne _ _ _ _ hk

/-- Witness for `c10_promotion_frame` at a concrete promoted element. -/
theorem c10_promotion_frame_witness :
    ∃ el', (verifyElementStability (fun sel => sel == ".btn") 9
        (InteractiveSession.mk "s1" "" none []
          [("e1", ElementMapping.mk "e1" "go" "#go" [".btn", ".x"] "button" [] "Go" 0 true),
           ("e2", ElementMapping.mk "e2" "x" "#x" [] "link" [] "" 0 true)]
          false) "e1").2.elementMappings.lookup "e1" = some el' ∧
      el'.selector = ".btn" ∧
      el'.lastVerified = 9 ∧
      el'.alternativeSelectors =
        (ElementMapping.mk "e1" "go" "#go" [".btn", ".x"] "button" [] "Go" 0
          true).alternativeSelectors ∧
      ".btn" ∈ el'.alternativeSelectors ∧
      el'.id = (ElementMapping.mk "e1" "go" "#go" [".btn", ".x"] "button" [] "Go" 0 true).id ∧
      el'.name =
        (ElementMapping.mk "e1" "go" "#go" [".btn", ".x"] "button" [] "Go" 0 true).name ∧
      el'.type =
        (ElementMapping.mk "e1" "go" "#go" [".btn", ".x"] "button" [] "Go" 0 true).type ∧
      el'.attributes =
        (ElementMapping.mk "e1" "go" "#go" [".btn", ".x"] "button" [] "Go" 0
          true).attributes ∧
      el'.text =
        (ElementMapping.mk "e1" "go" "#go" [".btn", ".x"] "button" [] "Go" 0 true).text ∧
      el'.isStable =
        (ElementMapping.mk "e1" "go" "#go" [".btn", ".x"] "button" [] "Go" 0
          true).isStable ∧
      (∀ k, k ≠ "e1" →
        (verifyElementStability (fun sel => sel == ".btn") 9
          (InteractiveSession.mk "s1" "" none []
            [("e1", ElementMapping.mk "e1" "go" "#go" [".btn", ".x"] "button" [] "Go" 0 true),
             ("e2", ElementMapping.mk "e2" "x" "#x" [] "link" [] "" 0 true)]
            false) "e1").2.elementMappings.lookup k =
          (InteractiveSession.mk "s1" "" none []
            [("e1", ElementMapping.mk "e1" "go" "#go" [".btn", ".x"] "button" [] "Go" 0 true),
             ("e2", ElementMapping.mk "e2" "x" "#x" [] "link" [] "" 0 true)]
            false).elementMappings.lookup k) :=
  c10_promotion_frame _ 9 _ "e1" _ ".btn" (by rfl) (by rfl) (by rfl)

/-- C5: `startRecording` resets `recordedSteps` and arms the recorder, so
after a run of qualifying click/fill actions between `startRecording` and
`stopRecording` the step count equals the number of actions; actions while
disarmed execute but append nothing; each action while armed appends exactly
one step. -/
theorem c5_recording_invariant :
    (∀ (page : String → Option PageElement) (altsOf : String → List String) (now : Nat)
        (acts : List RecAction) (s s' : InteractiveSession),
      runActions page altsOf now acts (startRecording s) = some s' →
      (stopRecording s').recordedSteps.length = acts.length) ∧
    (∀ (page : String → Option PageElement) (altsOf : String → List String) (now : Nat)
        (acts : List RecAction) (s s' : InteractiveSession),
      s.isRecording = false →
      runActions page altsOf now acts s = some s' →
      s'.recordedSteps = s.recordedSteps) ∧
    (∀ (page : String → Option PageElement) (altsOf : String → List String) (now : Nat)
        (a : RecAction) (s t : InteractiveSession),
      s.isRecording = true →
      applyAction page altsOf now s a = some t →
      t.recordedSteps.length = s.recordedSteps.length + 1) := by
  refine ⟨?_, ?_, ?_⟩
  · intro page altsOf now acts s s' h
    have harm := runActions_armed page altsOf now acts (startRecording s) s' (by rfl) h
    simpa [stopRecording, startRecording] using harm.2
  · intro page altsOf now acts s s' hr h
    exact (runActions_idle page altsOf now acts s s' hr h).2
  · intro page altsOf now a s t hr h
    exact (applyAction_spec page altsOf now s a t h).2.1 hr

/-- Witness for `c5_recording_invariant` on a concrete two-action run. -/
theorem c5_recording_invariant_witness :
    (∃ s', runActions (fun _ => some (PageElement.mk "button" "" "Go" []))
        (fun _ => []) 3
        [RecAction.click "#go" none, RecAction.fill "#name" "v" none]
        (startRecording (InteractiveSession.mk "s1" "" none [] [] false)) = some s' ∧
      (stopRecording s').recordedSteps.length = 2) ∧
    (∃ t, runActions (fun _ => some (PageElement.mk "button" "" "Go" []))
        (fun _ => []) 3 [RecAction.click "#go" none]
        (InteractiveSession.mk "s1" "" none [] [] false) = some t ∧
      t.recordedSteps = []) ∧
    (∃ u, applyAction (fun _ => some (PageElement.mk "button" "" "Go" []))
        (fun _ => []) 3
        (startRecording (InteractiveSession.mk "s1" "" none [] [] false))
        (RecAction.click "#go" none) = some u ∧
      u.recordedSteps.length = 1) := by
  refine ⟨⟨_, rfl, c5_recording_invariant.1
      (fun _ => some (PageElement.mk "button" "" "Go" [])) (fun _ => []) 3
      [RecAction.click "#go" none, RecAction.fill "#name" "v" none]
      (InteractiveSession.mk "s1" "" none [] [] false) _ (by rfl)⟩,
    ⟨_, rfl, c5_recording_invariant.2.1
      (fun _ => some (PageElement.mk "button" "" "Go" [])) (fun _ => []) 3
      [RecAction.click "#go" none]
      (InteractiveSession.mk "s1" "" none [] [] false) _ (by rfl) (by rfl)⟩,
    ⟨_, rfl, c5_recording_invariant.2.2
      (fun _ => some (PageElement.mk "button" "" "Go" [])) (fun _ => []) 3
      (RecAction.click "#go" none)
      (startRecording (InteractiveSession.mk "s1" "" none [] [] false)) _
      (by rfl) (by rfl)⟩⟩

/-- C6 counterexample: ending a session twice does not produce a Not Found
error — the second `endSession` returns silently (`if (!session) return;`)
and the DELETE route responds `success: true, 'Session ended'`, not
"session not found". -/
theorem c6_second_end_counterexample :
    (endSession (endSession [("s1", InteractiveSession.mk "s1" "" none [] [] false)]
        "s1").1 "s1").2 = Except.ok () ∧
    (deleteSessionRoute (endSession
        [("s1", InteractiveSession.mk "s1" "" none [] [] false)] "s1").1 "s1").2 =
      RouteResponse.mk true (some "Session ended") none ∧
    (Except.ok () : Except String Unit) ≠ Except.error "session not found" := by
  refine ⟨rfl, rfl, ?_⟩
  intro h
  cases h

/-- C6 (amended): ending an already-ended (or unknown) session id neither
throws nor reports Not Found — `endSession` is a silent no-op and the DELETE
route responds success — while the other session operations guarded by
`requireSession` do fail with "Session not found". -/
theorem c6_end_idempotent (sessions : List (String × InteractiveSession)) (sid : String)
    (h : sessions.lookup sid = none) :
    endSession sessions sid = (sessions, Except.ok ()) ∧
    (deleteSessionRoute sessions sid).2 =
      RouteResponse.mk true (some "Session ended") none ∧
    requireSession sessions sid = Except.error "Session not found" := by
  refine ⟨?_, ?_, ?_⟩ <;> simp [endSession, deleteSessionRoute, requireSession, h]

/-- Witness for `c6_end_idempotent`: the store after a first `endSession`,
where the id no longer resolves. -/
theorem c6_end_idempotent_witness :
    endSession (endSession [("s1", InteractiveSession.mk "s1" "" none [] [] false)]
        "s1").1 "s1" =
      ((endSession [("s1", InteractiveSession.mk "s1" "" none [] [] false)] "s1").1,
        Except.ok ()) ∧
    (deleteSessionRoute (endSession
        [("s1", InteractiveSession.mk "s1" "" none [] [] false)] "s1").1 "s1").2 =
      RouteResponse.mk true (some "Session ended") none ∧
    requireSession (endSession
        [("s1", InteractiveSession.mk "s1" "" none [] [] false)] "s1").1 "s1" =
      Except.error "Session not found" :=
  c6_end_idempotent _ "s1" (by rfl)

/-- C4: `findPageObjectByUrl` returns a stored POM for a URL some stored
POM's `url` equals exactly, and — concretely — a POM created from
`/items/42` (whose `urlPattern` is `/items/\d+`) is found both for the exact
URL and for `/items/99`, whose numeric segment differs. -/
theorem c4_find_by_url :
    (∀ (repo : List PageObjectModel) (url : String),
      (∃ p ∈ repo, p.url = url) →
      ∃ q ∈ repo, findPageObjectByUrl repo url = some q) ∧
    (∀ (now : Nat) (els : List ElementMapping),
      findPageObjectByUrl [createPageObjectModel now "http://localhost:3000/items/42" els]
        "http://localhost:3000/items/42" =
        some (createPageObjectModel now "http://localhost:3000/items/42" els) ∧
      findPageObjectByUrl [createPageObjectModel now "http://localhost:3000/items/42" els]
        "http://localhost:3000/items/99" =
        some (createPageObjectModel now "http://localhost:3000/items/42" els)) := by
  constructor
  · intro repo url hex
    obtain ⟨p, hp, hu⟩ := hex
    simp only [findPageObjectByUrl]
    have hs : (repo.find? (fun pom =>
        pom.url == url ||
          (match pom.urlPattern with
           | some pat => regexTest pat url
           | none => false))).isSome := by
      rw [List.find?_isSome]
      exact ⟨p, hp, by simp [hu]⟩
    obtain ⟨q, hq⟩ := Option.isSome_iff_exists.mp hs
    exact ⟨q, List.mem_of_find?_eq_some hq, hq⟩
  · intro now els
    constructor
    · exact List.find?_cons_of_pos _ (by rfl)
    · exact List.find?_cons_of_pos _ (by rfl)

/-- Witness for `c4_find_by_url`: the general exact-match conjunct at a
concrete one-POM repository. -/
theorem c4_find_by_url_witness :
    ∃ q ∈ [createPageObjectModel 5 "http://localhost:3000/items/42" []],
      findPageObjectByUrl [createPageObjectModel 5 "http://localhost:3000/items/42" []]
        "http://localhost:3000/items/42" = some q :=
  c4_find_by_url.1 [createPageObjectModel 5 "http://localhost:3000/items/42" []]
    "http://localhost:3000/items/42"
    ⟨createPageObjectModel 5 "http://localhost:3000/items/42" [], by simp, rfl⟩

/-- Every key of the selector-keyed merge map is its value's selector. -/
def SelKeyed (m : List (String × ElementMapping)) : Prop :=
  ∀ p ∈ m, p.1 = p.2.selector

/-- The merge map has pairwise distinct keys. -/
def KeysNodup (m : List (String × ElementMapping)) : Prop :=
  (m.map Prod.fst).Nodup

/-- Unfolding `mapSet` at a matching head. -/
theorem mapSet_cons_eq (k k' : String) (v v' : ElementMapping)
    (rest : List (String × ElementMapping)) (h : k' = k) :
    mapSet k v ((k', v') :: rest) = (k, v) :: rest := by
  simp [mapSet, h]

/-- Unfolding `mapSet` at a non-matching head. -/
theorem mapSet_cons_ne (k k' : String) (v v' : ElementMapping)
    (rest : List (String × ElementMapping)) (h : k' ≠ k) :
    mapSet k v ((k', v') :: rest) = (k', v') :: mapSet k v rest := by
  simp [mapSet, h]

/-- A key of `mapSet k v m` is `k` or a key of `m`. -/
theorem keys_mapSet_subset (k : String) (v : ElementMapping)
    (m : List (String × ElementMapping)) :
    ∀ x ∈ (mapSet k v m).map Prod.fst, x = k ∨ x ∈ m.map Prod.fst := by
  induction m with
  | nil =>
    intro x hx
    simp [mapSet] at hx
    exact Or.inl hx
  | cons p rest ih =>
    obtain ⟨k', v'⟩ := p
    by_cases hq : k' = k
    · rw [mapSet_cons_eq k k' v v' rest hq]
      intro x hx
      rcases List.mem_cons.mp hx with rfl | hx
      · exact Or.inl rfl
      · exact Or.inr (List.mem_cons_of_mem _ hx)
    · rw [mapSet_cons_ne k k' v v' rest hq]
      intro x hx
      rcases List.mem_cons.mp hx with rfl | hx
      · exact Or.inr (List.mem_cons_self _ _)
      · rcases ih x hx with hx' | hx'
        · exact Or.inl hx'
        · exact Or.inr (List.mem_cons_of_mem _ hx')

/-- `mapSet` preserves `SelKeyed` when the new key is the value's selector. -/
theorem selKeyed_mapSet (k : String) (v : ElementMapping)
    (m : List (String × ElementMapping)) (h : SelKeyed m) (hk : k = v.selector) :
    SelKeyed (mapSet k v m) := by
  induction m with
  | nil =>
    intro p hp
    simp [mapSet] at hp
    simp [hp, hk]
  | cons q rest ih =>
    obtain ⟨k', v'⟩ := q
    by_cases hq : k' = k
    · rw [mapSet_cons_eq k k' v v' rest hq]
      intro p hp
      rcases List.mem_cons.mp hp with rfl | hp
      · exact hk
      · exact h p (List.mem_cons_of_mem _ hp)
    · rw [mapSet_cons_ne k k' v v' rest hq]
      intro p hp
      rcases List.mem_cons.mp hp with rfl | hp
      · exact h _ (List.mem_cons_self _ _)
      · exact ih (fun r hr => h r (List.mem_cons_of_mem _ hr)) p hp

/-- `mapSet` preserves key distinctness. -/
theorem keysNodup_mapSet (k : String) (v : ElementMapping)
    (m : List (String × ElementMapping)) (h : KeysNodup m) :
    KeysNodup (mapSet k v m) := by
  induction m with
  | nil => simp [KeysNodup, mapSet]
  | cons p rest ih =>
    obtain ⟨k', v'⟩ := p
    have h1 : k' ∉ rest.map Prod.fst := (List.nodup_cons.mp h).1
    have h2 : KeysNodup rest := (List.nodup_cons.mp h).2
    by_cases hq : k' = k
    · rw [KeysNodup, mapSet_cons_eq k k' v v' rest hq]
      exact List.nodup_cons.mpr ⟨hq ▸ h1, h2⟩
    · rw [KeysNodup, mapSet_cons_ne k k' v v' rest hq]
      refine List.nodup_cons.mpr ⟨?_, ih h2⟩
      intro hmem
      rcases keys_mapSet_subset k v rest k' hmem with h' | h'
      · exact hq h'
      · exact h1 h'

/-- `mergeStep` preserves `SelKeyed`. -/
theorem selKeyed_mergeStep (now : Nat) (m : List (String × ElementMapping))
    (el : ElementMapping) (h : SelKeyed m) : SelKeyed (mergeStep now m el) := by
  unfold mergeStep
  cases hl : m.lookup el.selector with
  | some ex =>
    have hmem := lookup_mem _ _ _ hl
    have hsel : el.selector = ex.selector := h _ hmem
    exact selKeyed_mapSet _ _ _ h hsel
  | none => exact selKeyed_mapSet _ _ _ h rfl

/-- `mergeStep` preserves key distinctness. -/
theorem keysNodup_mergeStep (now : Nat) (m : List (String × ElementMapping))
    (el : ElementMapping) (h : KeysNodup m) : KeysNodup (mergeStep now m el) := by
  unfold mergeStep
  cases m.lookup el.selector <;> exact keysNodup_mapSet _ _ _ h

/-- Folding `mergeStep` preserves `SelKeyed`. -/
theorem selKeyed_foldl_mergeStep (now : Nat) (l : List ElementMapping) :
    ∀ m, SelKeyed m → SelKeyed (l.foldl (mergeStep now) m) := by
  induction l with
  | nil => intro m h; exact h
  | cons a rest ih =>
    intro m h
    rw [List.foldl_cons]
    exact ih _ (selKeyed_mergeStep now m a h)

/-- Folding `mergeStep` preserves key distinctness. -/
theorem keysNodup_foldl_mergeStep (now : Nat) (l : List ElementMapping) :
    ∀ m, KeysNodup m → KeysNodup (l.foldl (mergeStep now) m) := by
  induction l with
  | nil => intro m h; exact h
  | cons a rest ih =>
    intro m h
    rw [List.foldl_cons]
    exact ih _ (keysNodup_mergeStep now m a h)

/-- `buildBySelector` seeds a map keyed by the elements' selectors. -/
theorem selKeyed_foldl_set (els : List ElementMapping) :
    ∀ acc, SelKeyed acc →
      SelKeyed (els.foldl (fun m el => mapSet el.selector el m) acc) := by
  induction els with
  | nil => intro acc h; exact h
  | cons a rest ih =>
    intro acc h
    rw [List.foldl_cons]
    exact ih _ (selKeyed_mapSet _ _ _ h rfl)

/-- `buildBySelector` keeps keys distinct. -/
theorem keysNodup_foldl_set (els : List ElementMapping) :
    ∀ acc, KeysNodup acc →
      KeysNodup (els.foldl (fun m el => mapSet el.selector el m) acc) := by
  induction els with
  | nil => intro acc h; exact h
  | cons a rest ih =>
    intro acc h
    rw [List.foldl_cons]
    exact ih _ (keysNodup_mapSet _ _ _ h)

/-- Seeding a map from elements with pairwise distinct selectors, over an
accumulator that carries none of those selectors, appends them in order. -/
theorem foldl_set_disjoint (els : List ElementMapping) :
    ∀ acc, (∀ el ∈ els, ∀ p ∈ acc, p.1 ≠ el.selector) →
      (els.map (fun e => e.selector)).Nodup →
      els.foldl (fun m el => mapSet el.selector el m) acc =
        acc ++ els.map (fun el => (el.selector, el)) := by
  induction els with
  | nil => intro acc _ _; simp
  | cons e rest ih =>
    intro acc hdis hnod
    rw [List.foldl_cons,
      mapSet_append_of_not_mem _ _ _ (fun p hp => hdis e (by simp) p hp)]
    have hnotin : e.selector ∉ rest.map (fun x => x.selector) := by
      simp only [List.map_cons, List.nodup_cons] at hnod
      exact hnod.1
    rw [ih (acc ++ [(e.selector, e)]) ?_ ?_]
    · simp
    · intro el hel p hp
      rcases List.mem_append.mp hp with hp | hp
      · exact hdis el (by simp [hel]) p hp
      · have : p = (e.selector, e) := by simpa using hp
        subst this
        intro hcontra
        apply hnotin
        simp only at hcontra
        rw [hcontra]
        exact List.mem_map_of_mem (fun x => x.selector) hel
    · simp only [List.map_cons, List.nodup_cons] at hnod
      exact hnod.2

/-- Pairing each stored element with its selector restores the map entries
when keys are the selectors. -/
theorem map_selector_pair (m : List (String × ElementMapping)) (h1 : SelKeyed m) :
    (m.map Prod.snd).map (fun el => (el.selector, el)) = m := by
  revert h1
  induction m with
  | nil => intro _; rfl
  | cons p rest ih =>
    intro h1
    simp only [List.map_cons]
    rw [ih (fun q hq => h1 q (List.mem_cons_of_mem _ hq))]
    have hp : p.1 = p.2.selector := h1 p (List.mem_cons_self _ _)
    rw [show ((p.2.selector, p.2) : String × ElementMapping) = p from by rw [← hp]]

/-- Rebuilding the map from its stored elements is the identity when keys
are the selectors and distinct. -/
theorem buildBySelector_rebuild (m : List (String × ElementMapping))
    (h1 : SelKeyed m) (h2 : KeysNodup m) :
    buildBySelector (m.map Prod.snd) = m := by
  have hnod : ((m.map Prod.snd).map (fun e => e.selector)).Nodup := by
    have heq : (m.map Prod.snd).map (fun e => e.selector) = m.map Prod.fst := by
      rw [List.map_map]
      exact List.map_congr_left (fun p hp => (h1 p hp).symm)
    rw [heq]
    exact h2
  unfold buildBySelector
  rw [foldl_set_disjoint _ [] (by simp) hnod]
  simpa using map_selector_pair m h1

/-- An element freshly verified at time `now` (exactly what `extractAllElements`
and a matching merge produce). -/
def Stamped (now : Nat) (e : ElementMapping) : Prop :=
  e.isStable = true ∧ e.lastVerified = now

/-- Re-stamping an already stamped element is the identity. -/
theorem stamp_self (now : Nat) (e : ElementMapping) (h : Stamped now e) :
    ({ e with lastVerified := now, isStable := true }) = e := by
  obtain ⟨h1, h2⟩ := h
  cases e
  simp_all

/-- After `mergeStep` the fresh element's selector maps to a stamped entry. -/
theorem lookup_mergeStep_self (now : Nat) (m : List (String × ElementMapping))
    (el : ElementMapping) (hst : Stamped now el) :
    ∃ ex, (mergeStep now m el).lookup el.selector = some ex ∧ Stamped now ex := by
  unfold mergeStep
  cases hl : m.lookup el.selector with
  | some ex =>
    exact ⟨{ ex with lastVerified := now, isStable := true },
      lookup_mapSet_self _ _ _, rfl, rfl⟩
  | none => exact ⟨el, lookup_mapSet_self _ _ _, hst⟩

/-- `mergeStep` keeps every stamped entry stamped. -/
theorem lookup_mergeStep_preserve (now : Nat) (m : List (String × ElementMapping))
    (el' : ElementMapping) (k : String) (ex : ElementMapping)
    (h : m.lookup k = some ex) (hst : Stamped now ex) :
    ∃ ex2, (mergeStep now m el').lookup k = some ex2 ∧ Stamped now ex2 := by
  by_cases hk : el'.selector = k
  · subst hk
    unfold mergeStep
    rw [h]
    exact ⟨{ ex with lastVerified := now, isStable := true },
      lookup_mapSet_self _ _ _, rfl, rfl⟩
  · unfold mergeStep
    cases m.lookup el'.selector with
    | some ex' =>
      exact ⟨ex, (lookup_mapSet_ne _ _ _ _ fun he => hk he.symm).trans h, hst⟩
    | none =>
      exact ⟨ex, (lookup_mapSet_ne _ _ _ _ fun he => hk he.symm).trans h, hst⟩

/-- Folding `mergeStep` keeps every stamped entry stamped. -/
theorem foldl_merge_stamped_preserve (now : Nat) (l : List ElementMapping) :
    ∀ (m : List (String × ElementMapping)) (k : String) (ex : ElementMapping),
      m.lookup k = some ex → Stamped now ex →
      ∃ ex2, (l.foldl (mergeStep now) m).lookup k = some ex2 ∧ Stamped now ex2 := by
  induction l with
  | nil => intro m k ex h hst; exact ⟨ex, h, hst⟩
  | cons a rest ih =>
    intro m k ex h hst
    rw [List.foldl_cons]
    obtain ⟨ex2, h2, hst2⟩ := lookup_mergeStep_preserve now m a k ex h hst
    exact ih _ k ex2 h2 hst2

/-- After a merge fold of stamped fresh elements, every fresh selector maps
to a stamped entry. -/
theorem foldl_merge_lookup_all (now : Nat) (l : List ElementMapping)
    (hl : ∀ e ∈ l, Stamped now e) :
    ∀ m, ∀ el ∈ l, ∃ ex,
      (l.foldl (mergeStep now) m).lookup el.selector = some ex ∧ Stamped now ex := by
  induction l with
  | nil => intro m el hel; cases hel
  | cons a rest ih =>
    intro m el hel
    rw [List.foldl_cons]
    rcases List.mem_cons.mp hel with rfl | hel
    · obtain ⟨ex, hex, hst⟩ :=
        lookup_mergeStep_self now m el (hl el (List.mem_cons_self _ _))
      exact foldl_merge_stamped_preserve now rest _ _ _ hex hst
    · exact ih (fun e he => hl e (List.mem_cons_of_mem _ he)) (mergeStep now m a) el hel

/-- Merging a fresh element whose selector already maps to a stamped entry
changes nothing. -/
theorem mergeStep_id (now : Nat) (m : List (String × ElementMapping))
    (el ex : ElementMapping) (h : m.lookup el.selector = some ex)
    (hst : Stamped now ex) : mergeStep now m el = m := by
  unfold mergeStep
  rw [h]
  dsimp only
  rw [stamp_self now ex hst]
  exact mapSet_lookup_self _ _ _ h

/-- A merge fold over fresh elements whose selectors all map to stamped
entries is the identity. -/
theorem foldl_merge_id (now : Nat) (l : List ElementMapping) :
    ∀ m, (∀ el ∈ l, ∃ ex, m.lookup el.selector = some ex ∧ Stamped now ex) →
      l.foldl (mergeStep now) m = m := by
  induction l with
  | nil => intro m _; rfl
  | cons a rest ih =>
    intro m hall
    obtain ⟨ex, hex, hst⟩ := hall a (List.mem_cons_self _ _)
    rw [List.foldl_cons, mergeStep_id now m a ex hex hst]
    exact ih m (fun el hel => hall el (List.mem_cons_of_mem _ hel))

/-- C3: merging the same fresh extraction twice yields the same `elements`
content as merging it once (fresh elements carry `isStable = true` and the
current verification stamp, as `extractAllElements` produces them), while
`version` is incremented by exactly one on each call. -/
theorem c3_merge_idempotent (now : Nat) (pom : PageObjectModel)
    (fresh : List ElementMapping)
    (hf : ∀ e ∈ fresh, e.isStable = true ∧ e.lastVerified = now) :
    (updatePageObjectModel now (updatePageObjectModel now pom fresh) fresh).elements =
      (updatePageObjectModel now pom fresh).elements ∧
    (updatePageObjectModel now pom fresh).version = pom.version + 1 ∧
    (updatePageObjectModel now (updatePageObjectModel now pom fresh) fresh).version =
      pom.version + 2 := by
  refine ⟨?_, rfl, rfl⟩
  have hsk : SelKeyed (fresh.foldl (mergeStep now) (buildBySelector pom.elements)) :=
    selKeyed_foldl_mergeStep now fresh _
      (selKeyed_foldl_set pom.elements [] (by intro p hp; cases hp))
  have hkn : KeysNodup (fresh.foldl (mergeStep now) (buildBySelector pom.elements)) :=
    keysNodup_foldl_mergeStep now fresh _
      (keysNodup_foldl_set pom.elements [] (by simp [KeysNodup]))
  have hall : ∀ el ∈ fresh, ∃ ex,
      (fresh.foldl (mergeStep now) (buildBySelector pom.elements)).lookup el.selector =
        some ex ∧ Stamped now ex :=
    foldl_merge_lookup_all now fresh hf _
  show (fresh.foldl (mergeStep now)
      (buildBySelector ((fresh.foldl (mergeStep now)
        (buildBySelector pom.elements)).map Prod.snd))).map Prod.snd =
    (fresh.foldl (mergeStep now) (buildBySelector pom.elements)).map Prod.snd
  rw [buildBySelector_rebuild _ hsk hkn, foldl_merge_id now fresh _ hall]

/-- Witness for `c3_merge_idempotent` at a concrete POM and extraction. -/
theorem c3_merge_idempotent_witness :
    (updatePageObjectModel 7
      (updatePageObjectModel 7
        (PageObjectModel.mk "p1" "HomePage" "http://x/" none
          [ElementMapping.mk "e1" "go" "#go" [] "button" [] "Go" 0 true] 0 1)
        [ElementMapping.mk "f1" "go" "#go" [] "button" [] "Go" 7 true,
         ElementMapping.mk "f2" "menu" ".menu" [] "link" [] "Menu" 7 true])
      [ElementMapping.mk "f1" "go" "#go" [] "button" [] "Go" 7 true,
       ElementMapping.mk "f2" "menu" ".menu" [] "link" [] "Menu" 7 true]).elements =
      (updatePageObjectModel 7
        (PageObjectModel.mk "p1" "HomePage" "http://x/" none
          [ElementMapping.mk "e1" "go" "#go" [] "button" [] "Go" 0 true] 0 1)
        [ElementMapping.mk "f1" "go" "#go" [] "button" [] "Go" 7 true,
         ElementMapping.mk "f2" "menu" ".menu" [] "link" [] "Menu" 7 true]).elements ∧
    (updatePageObjectModel 7
      (PageObjectModel.mk "p1" "HomePage" "http://x/" none
        [ElementMapping.mk "e1" "go" "#go" [] "button" [] "Go" 0 true] 0 1)
      [ElementMapping.mk "f1" "go" "#go" [] "button" [] "Go" 7 true,
       ElementMapping.mk "f2" "menu" ".menu" [] "link" [] "Menu" 7 true]).version = 1 + 1 ∧
    (updatePageObjectModel 7
      (updatePageObjectModel 7
        (PageObjectModel.mk "p1" "HomePage" "http://x/" none
          [ElementMapping.mk "e1" "go" "#go" [] "button" [] "Go" 0 true] 0 1)
        [ElementMapping.mk "f1" "go" "#go" [] "button" [] "Go" 7 true,
         ElementMapping.mk "f2" "menu" ".menu" [] "link" [] "Menu" 7 true])
      [ElementMapping.mk "f1" "go" "#go" [] "button" [] "Go" 7 true,
       ElementMapping.mk "f2" "menu" ".menu" [] "link" [] "Menu" 7 true]).version = 1 + 2 :=
  c3_merge_idempotent 7
    (PageObjectModel.mk "p1" "HomePage" "http://x/" none
      [ElementMapping.mk "e1" "go" "#go" [] "button" [] "Go" 0 true] 0 1)
    [ElementMapping.mk "f1" "go" "#go" [] "button" [] "Go" 7 true,
     ElementMapping.mk "f2" "menu" ".menu" [] "link" [] "Menu" 7 true]
    (by decide)
